import Mathlib

/-!
# Fleet coordination core: shallow embedding

A shallow embedding of the fleet-management coordination layer
(allocation registry, shift lifecycle, order lifecycle with attempt
records, inventory credit on completion, GPS telemetry gate), translated
from the JavaScript service layer (`allocation.service.js`,
`shift.service.js` and `order.service.js`, `gps.service.js`, the Joi
allocation validator) together with the relational constraints the
services rely on, as documented in `docs/DECISIONS.md`
(`@@unique([vehicleId, allocationDate])`, `@@unique([driverId,
allocationDate])`, `@@unique([driverId, shiftDate])`,
`@@unique([locationId, productId])`, and `assignedDate DateTime?
@db.Date`).

The persistence store is a record of lists; every service operation is a
pure function from the store (plus a `now` instant) to a result paired
with the successor store.  A thrown service error corresponds to an
`Except.error` result paired with the unchanged store: in the source
every failing path throws before any write, or inside a transaction that
rolls back.
-/

namespace Fleet

/-- An instant: a calendar day index plus a time-of-day component
(`time = 0` is midnight).  Models a JavaScript `Date`. -/
structure DateTime where
  day : Nat
  time : Nat
deriving DecidableEq, Repr

/-- `date.setHours(0, 0, 0, 0)`: the same calendar day at midnight. -/
def midnight (t : DateTime) : DateTime := ⟨t.day, 0⟩

/-- Strict instant order, models JavaScript `Date` comparison (used by the
Joi `date.min` rule of the allocation validator). -/
def DateTime.before (a b : DateTime) : Bool :=
  a.day < b.day || (a.day == b.day && a.time < b.time)

/-- `date.toISOString().split('T')[0]`: render just the calendar day. -/
def isoDate (t : DateTime) : String := toString t.day

/-- The four caller-facing error kinds of `utils/errors.js`. -/
inductive Err where
  | notFound (msg : String)
  | validation (msg : String)
  | conflict (msg : String)
  | badRequest (msg : String)
deriving DecidableEq, Repr

structure Driver where
  id : Nat
  name : String
deriving DecidableEq, Repr

structure Vehicle where
  id : Nat
  registrationNumber : String
deriving DecidableEq, Repr

/-- `VehicleAllocation` row: one vehicle bound to one driver for one
calendar date. -/
structure VehicleAllocation where
  id : Nat
  vehicleId : Nat
  driverId : Nat
  allocationDate : DateTime
deriving DecidableEq, Repr

inductive ShiftStatus where
  | scheduled
  | active
  | completed
deriving DecidableEq, Repr

/-- `Shift` row. -/
structure Shift where
  id : Nat
  driverId : Nat
  vehicleAllocationId : Option Nat
  shiftDate : DateTime
  status : ShiftStatus
  startTime : Option DateTime
  endTime : Option DateTime
deriving DecidableEq, Repr

inductive OrderStatus where
  | pending
  | assigned
  | in_progress
  | completed
  | failed
deriving DecidableEq, Repr

/-- `Order` row.  `assignedDate` is stored in a `@db.Date` column
(docs/DECISIONS.md §2.4), so only the calendar day survives a write. -/
structure Order where
  id : Nat
  destinationId : Nat
  productId : Nat
  quantity : Nat
  status : OrderStatus
  assignedDriverId : Option Nat
  assignedDate : Option DateTime
deriving DecidableEq, Repr

inductive AttemptStatus where
  | in_progress
  | completed
  | failed
deriving DecidableEq, Repr

/-- `OrderAttempt` row: one driver's work on one order during one shift. -/
structure OrderAttempt where
  id : Nat
  orderId : Nat
  shiftId : Nat
  status : AttemptStatus
  failureReason : Option String
  completedAt : Option DateTime
deriving DecidableEq, Repr

/-- `Inventory` row, unique per (locationId, productId). -/
structure Inventory where
  locationId : Nat
  productId : Nat
  quantity : Nat
deriving DecidableEq, Repr

/-- `GpsLocation` row. -/
structure GpsLocation where
  id : Nat
  vehicleId : Nat
  shiftId : Nat
  latitude : Int
  longitude : Int
  recordedAt : DateTime
deriving DecidableEq, Repr

/-- The persistence store: one list per table, plus an id counter for
`@default(autoincrement())` primary keys. -/
structure DB where
  drivers : List Driver
  vehicles : List Vehicle
  locations : List Nat
  products : List Nat
  allocations : List VehicleAllocation
  shifts : List Shift
  orders : List Order
  attempts : List OrderAttempt
  inventory : List Inventory
  gps : List GpsLocation
  nextId : Nat
deriving DecidableEq, Repr

/-- `prisma.driver.findUnique({ where: { id } })`. -/
def findDriver (db : DB) (id : Nat) : Option Driver :=
  db.drivers.find? (fun d => d.id == id)

/-- `prisma.vehicle.findUnique({ where: { id } })`. -/
def findVehicle (db : DB) (id : Nat) : Option Vehicle :=
  db.vehicles.find? (fun v => v.id == id)

/-- `prisma.order.findUnique({ where: { id } })`. -/
def findOrder (db : DB) (id : Nat) : Option Order :=
  db.orders.find? (fun o => o.id == id)

/-- `prisma.shift.findUnique({ where: { id } })`. -/
def findShift (db : DB) (id : Nat) : Option Shift :=
  db.shifts.find? (fun s => s.id == id)

/-! ## Allocation registry (`allocation.service.js` `create`, plus the Joi
allocation validator) -/

/-- The service-layer body of `allocation.service.js` `create`:
existence checks, midnight normalization, then the `prisma.create`
guarded by the two uniqueness constraints of the `VehicleAllocation`
table; a P2002 whose target names `vehicleId` (resp. `driverId`) is
re-thrown as the vehicle-already-booked (resp. driver-already-has-a-
vehicle) `Conflict`. -/
def allocateService (vehicleId driverId : Nat) (allocationDate : DateTime)
    (db : DB) : Except Err VehicleAllocation × DB :=
  match findVehicle db vehicleId with
  | none =>
    (.error (.notFound ("Vehicle with ID " ++ toString vehicleId ++ " not found")), db)
  | some vehicle =>
    match findDriver db driverId with
    | none =>
      (.error (.notFound ("Driver with ID " ++ toString driverId ++ " not found")), db)
    | some driver =>
      let date := midnight allocationDate
      if db.allocations.any (fun a => a.vehicleId == vehicleId && a.allocationDate == date) then
        (.error (.conflict ("Vehicle " ++ vehicle.registrationNumber ++
          " is already allocated for " ++ isoDate date)), db)
      else if db.allocations.any (fun a => a.driverId == driverId && a.allocationDate == date) then
        (.error (.conflict ("Driver " ++ driver.name ++
          " already has a vehicle allocated for " ++ isoDate date)), db)
      else
        let alloc : VehicleAllocation := ⟨db.nextId, vehicleId, driverId, date⟩
        (.ok alloc,
          { db with allocations := db.allocations ++ [alloc], nextId := db.nextId + 1 })

/-- `POST /api/allocations`: the Joi validator (`allocationDate` must not
be before today's midnight, else a `Validation` error) followed by the
service `create`.  `now` is the instant the validator's `today` is
computed from. -/
def allocate (vehicleId driverId : Nat) (allocationDate : DateTime)
    (now : DateTime) (db : DB) : Except Err VehicleAllocation × DB :=
  if allocationDate.before (midnight now) then
    (.error (.validation "Allocation date cannot be in the past"), db)
  else
    allocateService vehicleId driverId allocationDate db

/-- `allocationService.getByDriverAndDate`: `findFirst` on
(driverId, allocationDate-at-midnight). -/
def getByDriverAndDate (db : DB) (driverId : Nat) (date : DateTime) :
    Option VehicleAllocation :=
  db.allocations.find? (fun a => a.driverId == driverId && a.allocationDate == midnight date)

/-! ## Shift lifecycle (`shift.service.js`) -/

/-- `shift.service.js` `getActiveShiftForDriver`: `findFirst` on
(driverId, status = active). -/
def getActiveShiftForDriver (db : DB) (driverId : Nat) : Option Shift :=
  db.shifts.find? (fun s => s.driverId == driverId && s.status == .active)

/-- `prisma.shift.update({ where: { id } })`: replace the single row with
the given id (unique primary key). -/
def updateShift (shifts : List Shift) (id : Nat) (s' : Shift) : List Shift :=
  shifts.map (fun s => if s.id == id then s' else s)

/-- `shift.service.js` `schedule`: driver must exist, date is normalized
to midnight, and the `@@unique([driverId, shiftDate])` row must not
already exist; creates a `scheduled` shift. -/
def scheduleShift (driverId : Nat) (shiftDate : DateTime) (db : DB) :
    Except Err Shift × DB :=
  match findDriver db driverId with
  | none =>
    (.error (.notFound ("Driver with ID " ++ toString driverId ++ " not found")), db)
  | some _ =>
    let date := midnight shiftDate
    if db.shifts.any (fun s => s.driverId == driverId && s.shiftDate == date) then
      (.error (.conflict ("Driver already has a shift scheduled for " ++ isoDate date)), db)
    else
      let s : Shift := ⟨db.nextId, driverId, none, date, .scheduled, none, none⟩
      (.ok s, { db with shifts := db.shifts ++ [s], nextId := db.nextId + 1 })

/-- `shift.service.js` `start`: unknown driver is `NotFound`; an existing
active shift is `Conflict`; a missing allocation for (driver, today) is
`BadRequest`; otherwise the `findUnique` row for (driver, today) — of
whatever status — is activated, or an ad-hoc active shift is created. -/
def startShift (driverId : Nat) (now : DateTime) (db : DB) :
    Except Err Shift × DB :=
  match findDriver db driverId with
  | none =>
    (.error (.notFound ("Driver with ID " ++ toString driverId ++ " not found")), db)
  | some driver =>
    let today := midnight now
    match getActiveShiftForDriver db driverId with
    | some _ => (.error (.conflict "Driver already has an active shift"), db)
    | none =>
      match getByDriverAndDate db driverId today with
      | none =>
        (.error (.badRequest ("No vehicle allocated for driver " ++ driver.name ++
          " today. Cannot start shift.")), db)
      | some alloc =>
        match db.shifts.find? (fun s => s.driverId == driverId && s.shiftDate == today) with
        | some scheduledShift =>
          let s' := { scheduledShift with
            status := .active, startTime := some now, vehicleAllocationId := some alloc.id }
          (.ok s', { db with shifts := updateShift db.shifts scheduledShift.id s' })
        | none =>
          let s : Shift := ⟨db.nextId, driverId, some alloc.id, today, .active, some now, none⟩
          (.ok s, { db with shifts := db.shifts ++ [s], nextId := db.nextId + 1 })

/-- The literal status string, as interpolated into error messages. -/
def ShiftStatus.name : ShiftStatus → String
  | .scheduled => "scheduled"
  | .active => "active"
  | .completed => "completed"

/-- The `where` predicate of the incomplete-orders query in
`shift.service.js` `end`: assignedDriverId = driverId, assignedDate =
the shift's date, status in { assigned, in_progress }. -/
def isBlockingOrder (driverId : Nat) (shiftDate : DateTime) (o : Order) : Bool :=
  o.assignedDriverId == some driverId && o.assignedDate == some shiftDate &&
    (o.status == .assigned || o.status == .in_progress)

/-- The `BadRequest` message listing the count and ids of blocking
orders. -/
def endBlockedMsg (blocking : List Order) : String :=
  "Cannot end shift: " ++ toString blocking.length ++ " incomplete order(s) (IDs: " ++
    String.intercalate ", " (blocking.map (fun o => toString o.id)) ++
    "). Mark them as completed or failed first."

/-- `shift.service.js` `end`: the caller must own the shift and the shift
must be active; any order matching `isBlockingOrder` blocks the end with
a `BadRequest` naming count and ids; otherwise the shift becomes
completed with `endTime = now`. -/
def endShift (id driverId : Nat) (now : DateTime) (db : DB) :
    Except Err Shift × DB :=
  match findShift db id with
  | none =>
    (.error (.notFound ("Shift with ID " ++ toString id ++ " not found")), db)
  | some shift =>
    if shift.driverId != driverId then
      (.error (.badRequest "This shift belongs to a different driver"), db)
    else if shift.status != .active then
      (.error (.badRequest ("Cannot end shift: status is " ++
        shift.status.name ++ ", not active")), db)
    else
      let incompleteOrders := db.orders.filter (isBlockingOrder driverId shift.shiftDate)
      if incompleteOrders.length > 0 then
        (.error (.badRequest (endBlockedMsg incompleteOrders)), db)
      else
        let s' := { shift with status := .completed, endTime := some now }
        (.ok s', { db with shifts := updateShift db.shifts shift.id s' })

/-! ## Order lifecycle (`order.service.js`) -/

/-- The literal status string, as interpolated into error messages. -/
def OrderStatus.name : OrderStatus → String
  | .pending => "pending"
  | .assigned => "assigned"
  | .in_progress => "in_progress"
  | .completed => "completed"
  | .failed => "failed"

/-- The `@db.Date` column type of `Order.assignedDate`
(docs/DECISIONS.md §2.4): writing a datetime keeps only the calendar
day. -/
def storeDate (t : DateTime) : DateTime := midnight t

/-- `prisma.order.update({ where: { id } })`. -/
def updateOrder (orders : List Order) (id : Nat) (o' : Order) : List Order :=
  orders.map (fun o => if o.id == id then o' else o)

/-- `prisma.orderAttempt.update({ where: { id } })`. -/
def updateAttempt (attempts : List OrderAttempt) (id : Nat) (a' : OrderAttempt) :
    List OrderAttempt :=
  attempts.map (fun a => if a.id == id then a' else a)

/-- `prisma.orderAttempt.findFirst` on (orderId, shiftId,
status = in_progress). -/
def findOpenAttempt (db : DB) (orderId shiftId : Nat) : Option OrderAttempt :=
  db.attempts.find? (fun a =>
    a.orderId == orderId && a.shiftId == shiftId && a.status == .in_progress)

/-- The body of a `createOrder` request. -/
structure CreateOrderData where
  destinationId : Nat
  productId : Nat
  quantity : Nat
  assignedDriverId : Option Nat
  assignedDate : Option DateTime
deriving DecidableEq, Repr

/-- `order.service.js` `create`: destination and product must exist; with
an assigned driver (who must exist) the status becomes `assigned` and a
missing `assignedDate` defaults to `new Date()` — the full current
instant, not normalized; without a driver the row keeps the schema's
`pending` default.  The `@db.Date` column stores only the calendar day
of whatever value arrives. -/
def createOrder (data : CreateOrderData) (now : DateTime) (db : DB) :
    Except Err Order × DB :=
  if !db.locations.contains data.destinationId then
    (.error (.notFound ("Destination with ID " ++ toString data.destinationId ++
      " not found")), db)
  else if !db.products.contains data.productId then
    (.error (.notFound ("Product with ID " ++ toString data.productId ++ " not found")), db)
  else
    match data.assignedDriverId with
    | some driverId =>
      match findDriver db driverId with
      | none =>
        (.error (.notFound ("Driver with ID " ++ toString driverId ++ " not found")), db)
      | some _ =>
        let date := data.assignedDate.getD now
        let o : Order := ⟨db.nextId, data.destinationId, data.productId, data.quantity,
          .assigned, some driverId, some (storeDate date)⟩
        (.ok o, { db with orders := db.orders ++ [o], nextId := db.nextId + 1 })
    | none =>
      let o : Order := ⟨db.nextId, data.destinationId, data.productId, data.quantity,
        .pending, none, data.assignedDate.map storeDate⟩
      (.ok o, { db with orders := db.orders ++ [o], nextId := db.nextId + 1 })

/-- `order.service.js` `assign`: only `pending` or `assigned` orders can
be (re)assigned; the driver must exist; the assigned date (given, or
today) is explicitly normalized to midnight via `setHours(0,0,0,0)`. -/
def assignOrder (id driverId : Nat) (assignedDate : Option DateTime)
    (now : DateTime) (db : DB) : Except Err Order × DB :=
  match findOrder db id with
  | none => (.error (.notFound ("Order with ID " ++ toString id ++ " not found")), db)
  | some o =>
    if o.status != .pending && o.status != .assigned then
      (.error (.conflict ("Cannot assign order: status is " ++ o.status.name ++
        ". Only pending or assigned orders can be reassigned.")), db)
    else
      match findDriver db driverId with
      | none =>
        (.error (.notFound ("Driver with ID " ++ toString driverId ++ " not found")), db)
      | some _ =>
        let date := midnight (assignedDate.getD now)
        let o' := { o with
          assignedDriverId := some driverId,
          assignedDate := some (storeDate date), status := .assigned }
        (.ok o', { db with orders := updateOrder db.orders id o' })

/-- `order.service.js` `startOrder`: the caller must be the assigned
driver of an `assigned` order and hold an active shift; the order moves
to `in_progress` and an `in_progress` attempt is created under that
shift, in one transaction. -/
def startOrder (id driverId : Nat) (db : DB) : Except Err Order × DB :=
  match findOrder db id with
  | none => (.error (.notFound ("Order with ID " ++ toString id ++ " not found")), db)
  | some o =>
    if o.assignedDriverId != some driverId then
      (.error (.badRequest "This order is not assigned to you"), db)
    else if o.status != .assigned then
      (.error (.conflict ("Cannot start order: status is " ++ o.status.name ++
        ". Only assigned orders can be started.")), db)
    else
      match getActiveShiftForDriver db driverId with
      | none =>
        (.error (.badRequest "Cannot start order: you do not have an active shift"), db)
      | some activeShift =>
        let o' := { o with status := .in_progress }
        let a : OrderAttempt := ⟨db.nextId, id, activeShift.id, .in_progress, none, none⟩
        (.ok o', { db with
          orders := updateOrder db.orders id o',
          attempts := db.attempts ++ [a], nextId := db.nextId + 1 })

/-- `prisma.inventory.upsert` on the `@@unique([locationId, productId])`
key: increment the row's quantity when it exists, otherwise create the
row with the delivered quantity. -/
def upsertInventory : List Inventory → Nat → Nat → Nat → List Inventory
  | [], locationId, productId, qty => [⟨locationId, productId, qty⟩]
  | r :: rest, locationId, productId, qty =>
    if r.locationId == locationId && r.productId == productId then
      { r with quantity := r.quantity + qty } :: rest
    else
      r :: upsertInventory rest locationId productId qty

/-- The quantity held for (locationId, productId), zero when no row
exists. -/
def invQty (inv : List Inventory) (locationId productId : Nat) : Nat :=
  match inv.find? (fun r => r.locationId == locationId && r.productId == productId) with
  | some r => r.quantity
  | none => 0

/-- Whether a row exists for (locationId, productId). -/
def hasInvRow (inv : List Inventory) (locationId productId : Nat) : Bool :=
  inv.any (fun r => r.locationId == locationId && r.productId == productId)

/-- `order.service.js` `completeOrder`: the caller must be the assigned
driver of an `in_progress` order, hold an active shift, and an
`in_progress` attempt must exist for (order, shift); one transaction
then marks the order completed, resolves the attempt with a completion
timestamp, and upserts the destination inventory by the order
quantity. -/
def completeOrder (id driverId : Nat) (now : DateTime) (db : DB) :
    Except Err Order × DB :=
  match findOrder db id with
  | none => (.error (.notFound ("Order with ID " ++ toString id ++ " not found")), db)
  | some o =>
    if o.assignedDriverId != some driverId then
      (.error (.badRequest "This order is not assigned to you"), db)
    else if o.status != .in_progress then
      (.error (.conflict ("Cannot complete order: status is " ++ o.status.name ++
        ". Only in_progress orders can be completed.")), db)
    else
      match getActiveShiftForDriver db driverId with
      | none =>
        (.error (.badRequest "Cannot complete order: you do not have an active shift"), db)
      | some activeShift =>
        match findOpenAttempt db id activeShift.id with
        | none => (.error (.badRequest "No active attempt found for this order"), db)
        | some attempt =>
          let o' := { o with status := .completed }
          let a' := { attempt with status := .completed, completedAt := some now }
          (.ok o', { db with
            orders := updateOrder db.orders id o',
            attempts := updateAttempt db.attempts attempt.id a',
            inventory := upsertInventory db.inventory o.destinationId o.productId o.quantity })

/-- `order.service.js` `failOrder`: the caller must be the assigned
driver of an `assigned` or `in_progress` order and hold an active shift;
one transaction marks the order failed and resolves the existing
`in_progress` attempt for (order, shift) — or creates a `failed` one —
with the reason and a timestamp.  Inventory is not touched. -/
def failOrder (id driverId : Nat) (reason : String) (now : DateTime) (db : DB) :
    Except Err Order × DB :=
  match findOrder db id with
  | none => (.error (.notFound ("Order with ID " ++ toString id ++ " not found")), db)
  | some o =>
    if o.assignedDriverId != some driverId then
      (.error (.badRequest "This order is not assigned to you"), db)
    else if o.status != .assigned && o.status != .in_progress then
      (.error (.conflict ("Cannot fail order: status is " ++ o.status.name ++
        ". Only assigned or in_progress orders can be failed.")), db)
    else
      match getActiveShiftForDriver db driverId with
      | none =>
        (.error (.badRequest "Cannot fail order: you do not have an active shift"), db)
      | some activeShift =>
        let o' := { o with status := .failed }
        match findOpenAttempt db id activeShift.id with
        | some attempt =>
          let a' := { attempt with
            status := .failed,
            failureReason := some reason, completedAt := some now }
          (.ok o', { db with
            orders := updateOrder db.orders id o',
            attempts := updateAttempt db.attempts attempt.id a' })
        | none =>
          let a : OrderAttempt :=
            ⟨db.nextId, id, activeShift.id, .failed, some reason, some now⟩
          (.ok o', { db with
            orders := updateOrder db.orders id o',
            attempts := db.attempts ++ [a], nextId := db.nextId + 1 })

/-! ## Telemetry gate (`gps.service.js` `create`) -/

/-- The vehicle the shift's allocation references, if any. -/
def shiftVehicle (db : DB) (s : Shift) : Option Nat :=
  s.vehicleAllocationId.bind (fun aid =>
    (db.allocations.find? (fun a => a.id == aid)).map (fun a => a.vehicleId))

/-- The `findFirst` of `gps.service.js` `create`: a shift with
status = active whose `vehicleAllocation` relation references the
vehicle. -/
def findActiveShiftForVehicle (db : DB) (vehicleId : Nat) : Option Shift :=
  db.shifts.find? (fun s => s.status == .active && shiftVehicle db s == some vehicleId)

/-- `gps.service.js` `create`: the vehicle must exist; `findFirst` an
active shift whose allocation references this vehicle, else
`BadRequest`; on success the ping is stored stamped with that shift's
id, `recordedAt` defaulting to the current instant. -/
def recordGps (vehicleId : Nat) (latitude longitude : Int)
    (recordedAt : Option DateTime) (now : DateTime) (db : DB) :
    Except Err GpsLocation × DB :=
  match findVehicle db vehicleId with
  | none =>
    (.error (.notFound ("Vehicle with ID " ++ toString vehicleId ++ " not found")), db)
  | some vehicle =>
    match findActiveShiftForVehicle db vehicleId with
    | none =>
      (.error (.badRequest ("Cannot record GPS: vehicle " ++ vehicle.registrationNumber ++
        " does not have an active shift")), db)
    | some activeShift =>
      let g : GpsLocation := ⟨db.nextId, vehicleId, activeShift.id,
        latitude, longitude, recordedAt.getD now⟩
      (.ok g, { db with gps := db.gps ++ [g], nextId := db.nextId + 1 })

/-! ## Allocation exclusivity invariant and the operation step relation -/

/-- Two allocation rows violate neither uniqueness constraint of the
`VehicleAllocation` table: they agree on neither (vehicleId,
allocationDate) nor (driverId, allocationDate). -/
def AllocExcl (a b : VehicleAllocation) : Prop :=
  ¬(a.vehicleId = b.vehicleId ∧ a.allocationDate = b.allocationDate) ∧
  ¬(a.driverId = b.driverId ∧ a.allocationDate = b.allocationDate)

/-- The allocation-table invariant: at most one row per (vehicleId,
allocationDate) and at most one per (driverId, allocationDate). -/
def AllocUnique (db : DB) : Prop := db.allocations.Pairwise AllocExcl

/-- One externally-triggered operation of the core applied to the
store. -/
inductive Step : DB → DB → Prop where
  | alloc (db : DB) (v d : Nat) (t now : DateTime) :
      Step db (allocate v d t now db).2
  | schedule (db : DB) (d : Nat) (t : DateTime) :
      Step db (scheduleShift d t db).2
  | shiftStart (db : DB) (d : Nat) (now : DateTime) :
      Step db (startShift d now db).2
  | shiftEnd (db : DB) (s d : Nat) (now : DateTime) :
      Step db (endShift s d now db).2
  | orderCreate (db : DB) (data : CreateOrderData) (now : DateTime) :
      Step db (createOrder data now db).2
  | orderAssign (db : DB) (id d : Nat) (t : Option DateTime) (now : DateTime) :
      Step db (assignOrder id d t now db).2
  | orderStart (db : DB) (id d : Nat) :
      Step db (startOrder id d db).2
  | orderComplete (db : DB) (id d : Nat) (now : DateTime) :
      Step db (completeOrder id d now db).2
  | orderFail (db : DB) (id d : Nat) (r : String) (now : DateTime) :
      Step db (failOrder id d r now db).2
  | gpsRecord (db : DB) (v : Nat) (la lo : Int) (r : Option DateTime) (now : DateTime) :
      Step db (recordGps v la lo r now db).2

/-! ## Helper lemmas -/

theorem scheduleShift_allocations (d : Nat) (t : DateTime) (db : DB) :
    (scheduleShift d t db).2.allocations = db.allocations := by
  unfold scheduleShift
  repeat' (first | split | dsimp only)

theorem startShift_allocations (d : Nat) (now : DateTime) (db : DB) :
    (startShift d now db).2.allocations = db.allocations := by
  unfold startShift
  repeat' (first | split | dsimp only)

theorem endShift_allocations (s d : Nat) (now : DateTime) (db : DB) :
    (endShift s d now db).2.allocations = db.allocations := by
  unfold endShift
  repeat' (first | split | dsimp only)

theorem createOrder_allocations (data : CreateOrderData) (now : DateTime) (db : DB) :
    (createOrder data now db).2.allocations = db.allocations := by
  unfold createOrder
  repeat' (first | split | dsimp only)

theorem assignOrder_allocations (id d : Nat) (t : Option DateTime) (now : DateTime)
    (db : DB) : (assignOrder id d t now db).2.allocations = db.allocations := by
  unfold assignOrder
  repeat' (first | split | dsimp only)

theorem startOrder_allocations (id d : Nat) (db : DB) :
    (startOrder id d db).2.allocations = db.allocations := by
  unfold startOrder
  repeat' (first | split | dsimp only)

theorem completeOrder_allocations (id d : Nat) (now : DateTime) (db : DB) :
    (completeOrder id d now db).2.allocations = db.allocations := by
  unfold completeOrder
  repeat' (first | split | dsimp only)

theorem failOrder_allocations (id d : Nat) (r : String) (now : DateTime) (db : DB) :
    (failOrder id d r now db).2.allocations = db.allocations := by
  unfold failOrder
  repeat' (first | split | dsimp only)

theorem recordGps_allocations (v : Nat) (la lo : Int) (r : Option DateTime)
    (now : DateTime) (db : DB) :
    (recordGps v la lo r now db).2.allocations = db.allocations := by
  unfold recordGps
  repeat' (first | split | dsimp only)

/-- A successful `allocate` keeps the allocation-table invariant: the
two `any` pre-checks of the uniqueness constraints guarantee the new row
conflicts with no existing one. -/
theorem allocate_allocUnique (v d : Nat) (t now : DateTime) (db : DB)
    (h : AllocUnique db) : AllocUnique (allocate v d t now db).2 := by
  unfold AllocUnique at *
  unfold allocate allocateService
  repeat' (first | split | dsimp only)
  any_goals exact h
  rename_i hvany hdany
  simp only [List.pairwise_append, List.pairwise_singleton, List.mem_singleton]
  refine ⟨h, trivial, ?_⟩
  intro a ha b hb
  subst hb
  simp only [List.any_eq_true, not_exists, not_and] at hvany hdany
  have hv := hvany a ha
  have hd := hdany a ha
  simp only [Bool.and_eq_true, beq_iff_eq, not_and] at hv hd
  constructor
  · rintro ⟨h1, h2⟩
    exact hv h1 h2
  · rintro ⟨h1, h2⟩
    exact hd h1 h2

/-- Every operation of the core preserves the allocation-table
invariant: only `allocate` touches the table, and its pre-checks mirror
the uniqueness constraints. -/
theorem step_preserves_allocUnique {db db' : DB} (h : AllocUnique db)
    (st : Step db db') : AllocUnique db' := by
  cases st with
  | alloc v d t now => exact allocate_allocUnique v d t now db h
  | schedule d t =>
    unfold AllocUnique at *
    rw [scheduleShift_allocations]
    exact h
  | shiftStart d now =>
    unfold AllocUnique at *
    rw [startShift_allocations]
    exact h
  | shiftEnd s d now =>
    unfold AllocUnique at *
    rw [endShift_allocations]
    exact h
  | orderCreate data now =>
    unfold AllocUnique at *
    rw [createOrder_allocations]
    exact h
  | orderAssign id d t now =>
    unfold AllocUnique at *
    rw [assignOrder_allocations]
    exact h
  | orderStart id d =>
    unfold AllocUnique at *
    rw [startOrder_allocations]
    exact h
  | orderComplete id d now =>
    unfold AllocUnique at *
    rw [completeOrder_allocations]
    exact h
  | orderFail id d r now =>
    unfold AllocUnique at *
    rw [failOrder_allocations]
    exact h
  | gpsRecord v la lo r now =>
    unfold AllocUnique at *
    rw [recordGps_allocations]
    exact h

/-- Upserting (locationId, productId, qty) raises the held quantity for
that key by exactly qty, whether or not a row existed. -/
theorem invQty_upsert (inv : List Inventory) (l p q : Nat) :
    invQty (upsertInventory inv l p q) l p = invQty inv l p + q := by
  induction inv with
  | nil => simp [upsertInventory, invQty, List.find?]
  | cons r rest ih =>
    by_cases hr : (r.locationId == l && r.productId == p) = true
    · simp [upsertInventory, hr, invQty, List.find?]
    · simp only [upsertInventory, hr, if_false, Bool.false_eq_true]
      simp only [invQty, List.find?, hr] at ih ⊢
      exact ih

/-- After an upsert the (locationId, productId) row exists. -/
theorem hasInvRow_upsert (inv : List Inventory) (l p q : Nat) :
    hasInvRow (upsertInventory inv l p q) l p = true := by
  induction inv with
  | nil => simp [upsertInventory, hasInvRow]
  | cons r rest ih =>
    by_cases hr : (r.locationId == l && r.productId == p) = true
    · simp [upsertInventory, hr, hasInvRow]
    · simp only [upsertInventory, hr, if_false, Bool.false_eq_true]
      simp only [hasInvRow, List.any_cons, hr, Bool.false_or] at ih ⊢
      exact ih

/-- A successful `allocate` passed the validator, found both references,
found no row for either uniqueness key, and appended exactly the new
row. -/
theorem allocate_ok_inversion {v d : Nat} {t now : DateTime} {db db' : DB}
    {a : VehicleAllocation}
    (h : allocate v d t now db = (.ok a, db')) :
    t.before (midnight now) = false ∧
    (∃ vehicle, findVehicle db v = some vehicle) ∧
    (∃ driver, findDriver db d = some driver) ∧
    db.allocations.any
      (fun x => x.vehicleId == v && x.allocationDate == midnight t) = false ∧
    db.allocations.any
      (fun x => x.driverId == d && x.allocationDate == midnight t) = false ∧
    a = ⟨db.nextId, v, d, midnight t⟩ ∧
    db' = { db with
      allocations := db.allocations ++ [⟨db.nextId, v, d, midnight t⟩],
      nextId := db.nextId + 1 } := by
  unfold allocate allocateService at h
  repeat' (first | split at h | dsimp only at h)
  case' isTrue => exact Except.noConfusion (congrArg Prod.fst h)
  all_goals
    first
    | exact Except.noConfusion (congrArg Prod.fst h)
    | · rename_i hpast xv vehicle hveh xd driver hdrv hvany hdany
        have h1 := congrArg Prod.fst h
        have h2 := congrArg Prod.snd h
        simp only at h1 h2
        refine ⟨by simpa using hpast, ⟨vehicle, hveh⟩, ⟨driver, hdrv⟩,
          by simpa using hvany, by simpa using hdany, ?_, h2.symm⟩
        exact (Except.ok.inj h1).symm

/-! ## Concrete stores used as witnesses -/

/-- A store with two drivers and two vehicles and nothing else. -/
def dbTwo : DB :=
  ⟨[⟨1, "Dana"⟩, ⟨2, "Evan"⟩], [⟨1, "TXA"⟩, ⟨2, "TXB"⟩], [], [], [], [], [], [], [], [], 10⟩

/-- `dbTwo` after vehicle 1 was allocated to driver 1 for day 7. -/
def dbTwoAlloc : DB :=
  { dbTwo with allocations := [⟨10, 1, 1, ⟨7, 0⟩⟩], nextId := 11 }

/-! ## Claims -/

/-- C9: for every vehicle, driver and date strictly before today's
midnight, `allocate` fails with the past-date `Validation` error and
leaves the store unchanged, so no past-dated allocation row is ever
created. -/
theorem C9_allocate_past_date_fails_validation (vehicleId driverId : Nat)
    (t now : DateTime) (db : DB) (h : t.before (midnight now) = true) :
    allocate vehicleId driverId t now db =
      (.error (.validation "Allocation date cannot be in the past"), db) := by
  unfold allocate
  simp [h]

/-- C9 witness: day 4 mid-morning is strictly before day 5, and the
request is rejected with the store untouched. -/
theorem C9_witness :
    DateTime.before ⟨4, 10⟩ (midnight ⟨5, 2⟩) = true ∧
    allocate 1 2 ⟨4, 10⟩ ⟨5, 2⟩ dbTwo =
      (.error (.validation "Allocation date cannot be in the past"), dbTwo) :=
  ⟨by decide, C9_allocate_past_date_fails_validation 1 2 ⟨4, 10⟩ ⟨5, 2⟩ dbTwo (by decide)⟩

/-- C8: a Conflict from `allocate` names the violated exclusivity rule:
the vehicle-already-booked message when a row for (vehicleId, date)
exists, and the driver-already-has-a-vehicle message when no such row
exists but one for (driverId, date) does. -/
theorem C8_conflict_message_distinguishes (vehicleId driverId : Nat)
    (t now : DateTime) (db : DB) (vehicle : Vehicle) (driver : Driver)
    (hpast : t.before (midnight now) = false)
    (hv : findVehicle db vehicleId = some vehicle)
    (hd : findDriver db driverId = some driver) :
    (db.allocations.any
        (fun a => a.vehicleId == vehicleId && a.allocationDate == midnight t) = true →
      allocate vehicleId driverId t now db =
        (.error (.conflict ("Vehicle " ++ vehicle.registrationNumber ++
          " is already allocated for " ++ isoDate (midnight t))), db)) ∧
    (db.allocations.any
        (fun a => a.vehicleId == vehicleId && a.allocationDate == midnight t) = false →
      db.allocations.any
        (fun a => a.driverId == driverId && a.allocationDate == midnight t) = true →
      allocate vehicleId driverId t now db =
        (.error (.conflict ("Driver " ++ driver.name ++
          " already has a vehicle allocated for " ++ isoDate (midnight t))), db)) := by
  constructor
  · intro hany
    unfold allocate allocateService
    simp [hpast, hv, hd, hany]
  · intro hvany hdany
    unfold allocate allocateService
    simp [hpast, hv, hd, hvany, hdany]

/-- C8 witness: with vehicle 1 already allocated to driver 1 on day 7,
booking vehicle 1 for driver 2 yields the vehicle message and booking
vehicle 2 for driver 1 yields the driver message. -/
theorem C8_witness :
    allocate 1 2 ⟨7, 3⟩ ⟨7, 0⟩ dbTwoAlloc =
      (.error (.conflict ("Vehicle " ++ "TXA" ++
        " is already allocated for " ++ isoDate (midnight ⟨7, 3⟩))), dbTwoAlloc) ∧
    allocate 2 1 ⟨7, 3⟩ ⟨7, 0⟩ dbTwoAlloc =
      (.error (.conflict ("Driver " ++ "Dana" ++
        " already has a vehicle allocated for " ++ isoDate (midnight ⟨7, 3⟩))), dbTwoAlloc) :=
  ⟨(C8_conflict_message_distinguishes 1 2 ⟨7, 3⟩ ⟨7, 0⟩ dbTwoAlloc ⟨1, "TXA"⟩ ⟨2, "Evan"⟩
      (by decide) (by decide) (by decide)).1 (by decide),
   (C8_conflict_message_distinguishes 2 1 ⟨7, 3⟩ ⟨7, 0⟩ dbTwoAlloc ⟨2, "TXB"⟩ ⟨1, "Dana"⟩
      (by decide) (by decide) (by decide)).2 (by decide) (by decide)⟩

/-- C2: allocation exclusivity is bidirectional.  After a successful
`allocate(v, d1, t)`, `allocate(v, d2, t)` for another (existing) driver
fails Conflict; after a successful `allocate(v1, d, t)`, `allocate(v2,
d, t)` for another (existing) vehicle fails Conflict; and every sequence
of core operations preserves the invariant of at most one allocation row
per (vehicleId, date) and at most one per (driverId, date). -/
theorem C2_allocation_exclusivity :
    (∀ (v d1 d2 : Nat) (t now : DateTime) (db db' : DB) (a : VehicleAllocation)
        (driver2 : Driver), d1 ≠ d2 →
      findDriver db d2 = some driver2 →
      allocate v d1 t now db = (.ok a, db') →
      ∃ msg, (allocate v d2 t now db').1 = .error (.conflict msg)) ∧
    (∀ (d v1 v2 : Nat) (t now : DateTime) (db db' : DB) (a : VehicleAllocation)
        (vehicle2 : Vehicle), v1 ≠ v2 →
      findVehicle db v2 = some vehicle2 →
      allocate v1 d t now db = (.ok a, db') →
      ∃ msg, (allocate v2 d t now db').1 = .error (.conflict msg)) ∧
    (∀ db db', AllocUnique db → Relation.ReflTransGen Step db db' →
      AllocUnique db') := by
  refine ⟨?_, ?_, ?_⟩
  · intro v d1 d2 t now db db' a driver2 hne hd2 h
    obtain ⟨hpast, ⟨vehicle, hveh⟩, -, hvany, hdany, ha, hdb'⟩ := allocate_ok_inversion h
    subst hdb'
    have hveh' : findVehicle { db with
        allocations := db.allocations ++ [⟨db.nextId, v, d1, midnight t⟩],
        nextId := db.nextId + 1 } v = some vehicle := hveh
    have hd2' : findDriver { db with
        allocations := db.allocations ++ [⟨db.nextId, v, d1, midnight t⟩],
        nextId := db.nextId + 1 } d2 = some driver2 := hd2
    unfold allocate allocateService
    simp [hpast, hveh', hd2', List.any_append]
  · intro d v1 v2 t now db db' a vehicle2 hne hv2 h
    obtain ⟨hpast, -, ⟨driver, hdrv⟩, hvany, hdany, ha, hdb'⟩ := allocate_ok_inversion h
    subst hdb'
    have hv2' : findVehicle { db with
        allocations := db.allocations ++ [⟨db.nextId, v1, d, midnight t⟩],
        nextId := db.nextId + 1 } v2 = some vehicle2 := hv2
    have hdrv' : findDriver { db with
        allocations := db.allocations ++ [⟨db.nextId, v1, d, midnight t⟩],
        nextId := db.nextId + 1 } d = some driver := hdrv
    unfold allocate allocateService
    by_cases hcase : db.allocations.any
        (fun x => x.vehicleId == v2 && x.allocationDate == midnight t) = true
    · simp [hpast, hv2', hdrv', List.any_append, hcase]
    · simp only [Bool.not_eq_true] at hcase
      simp [hpast, hv2', hdrv', List.any_append, hcase, hdany, hne]
  · intro db db' h hst
    induction hst with
    | refl => exact h
    | tail _ st ih => exact step_preserves_allocUnique ih st

/-- C2 witness: after vehicle 1 goes to driver 1 for day 7, booking the
same vehicle for driver 2 and another vehicle for driver 1 both fail
Conflict, and the store reached by the step keeps the invariant. -/
theorem C2_witness :
    (∃ msg, (allocate 1 2 ⟨7, 0⟩ ⟨7, 0⟩ dbTwoAlloc).1 = .error (.conflict msg)) ∧
    (∃ msg, (allocate 2 1 ⟨7, 0⟩ ⟨7, 0⟩ dbTwoAlloc).1 = .error (.conflict msg)) ∧
    AllocUnique dbTwoAlloc := by
  have hstep : Step dbTwo dbTwoAlloc := Step.alloc dbTwo 1 1 ⟨7, 0⟩ ⟨7, 0⟩
  refine ⟨?_, ?_, ?_⟩
  · exact C2_allocation_exclusivity.1 1 1 2 ⟨7, 0⟩ ⟨7, 0⟩ dbTwo dbTwoAlloc
      ⟨10, 1, 1, ⟨7, 0⟩⟩ ⟨2, "Evan"⟩ (by decide) (by decide) rfl
  · exact C2_allocation_exclusivity.2.1 1 1 2 ⟨7, 0⟩ ⟨7, 0⟩ dbTwo dbTwoAlloc
      ⟨10, 1, 1, ⟨7, 0⟩⟩ ⟨2, "TXB"⟩ (by decide) (by decide) rfl
  · exact C2_allocation_exclusivity.2.2 dbTwo dbTwoAlloc
      (by simp [AllocUnique, dbTwo]) (Relation.ReflTransGen.single hstep)

/-- A store where driver 1 holds active shift 4 (allocation 3, day 9)
and order 5 (500 units of product 12 to location 11) is `in_progress`
with open attempt 6 under that shift. -/
def dbOrder : DB :=
  ⟨[⟨1, "Dana"⟩], [⟨1, "TXA"⟩], [11], [12],
   [⟨3, 1, 1, ⟨9, 0⟩⟩],
   [⟨4, 1, some 3, ⟨9, 0⟩, .active, some ⟨9, 1⟩, none⟩],
   [⟨5, 11, 12, 500, .in_progress, some 1, some ⟨9, 0⟩⟩],
   [⟨6, 5, 4, .in_progress, none, none⟩],
   [], [], 7⟩

/-- C1: for an `in_progress` order whose assigned driver holds an active
shift with a matching `in_progress` attempt, `completeOrder` succeeds in
one state update that completes the order, resolves that attempt with a
completion timestamp, and raises Inventory(order.destinationId,
order.productId) by exactly order.quantity, the row being created when
none existed. -/
theorem C1_completeOrder_credits_inventory (id driverId : Nat)
    (now : DateTime) (db : DB) (o : Order) (activeShift : Shift)
    (attempt : OrderAttempt)
    (ho : findOrder db id = some o)
    (hdrv : o.assignedDriverId = some driverId)
    (hst : o.status = .in_progress)
    (hsh : getActiveShiftForDriver db driverId = some activeShift)
    (hat : findOpenAttempt db id activeShift.id = some attempt) :
    completeOrder id driverId now db =
      (.ok { o with status := .completed },
        { db with
          orders := updateOrder db.orders id { o with status := .completed },
          attempts := updateAttempt db.attempts attempt.id
            { attempt with status := .completed, completedAt := some now },
          inventory :=
            upsertInventory db.inventory o.destinationId o.productId o.quantity }) ∧
    invQty (completeOrder id driverId now db).2.inventory o.destinationId o.productId =
      invQty db.inventory o.destinationId o.productId + o.quantity ∧
    hasInvRow (completeOrder id driverId now db).2.inventory o.destinationId
      o.productId = true := by
  have hmain : completeOrder id driverId now db =
      (.ok { o with status := .completed },
        { db with
          orders := updateOrder db.orders id { o with status := .completed },
          attempts := updateAttempt db.attempts attempt.id
            { attempt with status := .completed, completedAt := some now },
          inventory :=
            upsertInventory db.inventory o.destinationId o.productId o.quantity }) := by
    unfold completeOrder
    simp [ho, hdrv, hst, hsh, hat]
  refine ⟨hmain, ?_, ?_⟩
  · rw [hmain]
    exact invQty_upsert db.inventory o.destinationId o.productId o.quantity
  · rw [hmain]
    exact hasInvRow_upsert db.inventory o.destinationId o.productId o.quantity

/-- C1 witness: completing order 5 in `dbOrder` credits 500 units to the
previously missing (11, 12) inventory row. -/
theorem C1_witness :
    invQty (completeOrder 5 1 ⟨9, 2⟩ dbOrder).2.inventory 11 12 =
      invQty dbOrder.inventory 11 12 + 500 ∧
    hasInvRow (completeOrder 5 1 ⟨9, 2⟩ dbOrder).2.inventory 11 12 = true := by
  have h := C1_completeOrder_credits_inventory 5 1 ⟨9, 2⟩ dbOrder
    ⟨5, 11, 12, 500, .in_progress, some 1, some ⟨9, 0⟩⟩
    ⟨4, 1, some 3, ⟨9, 0⟩, .active, some ⟨9, 1⟩, none⟩
    ⟨6, 5, 4, .in_progress, none, none⟩
    (by decide) (by decide) (by decide) (by decide) (by decide)
  exact ⟨h.2.1, h.2.2⟩

/-- C3: for an active shift owned by the calling driver, `endShift`
fails BadRequest exactly when an order assigned to that driver for the
shift's date is still `assigned` or `in_progress`, with a message naming
the count and ids of the blockers and the store — blocked shift and
blocking orders included — left unchanged; with no such order it sets
the shift to completed with `endTime = now`. -/
theorem C3_endShift_blocked_iff_incomplete_orders (id driverId : Nat)
    (now : DateTime) (db : DB) (shift : Shift)
    (hs : findShift db id = some shift)
    (hown : shift.driverId = driverId)
    (hact : shift.status = .active) :
    (db.orders.filter (isBlockingOrder driverId shift.shiftDate) ≠ [] →
      endShift id driverId now db =
        (.error (.badRequest (endBlockedMsg
          (db.orders.filter (isBlockingOrder driverId shift.shiftDate)))), db)) ∧
    (db.orders.filter (isBlockingOrder driverId shift.shiftDate) = [] →
      endShift id driverId now db =
        (.ok { shift with status := .completed, endTime := some now },
          { db with
            shifts :=
              updateShift db.shifts shift.id
                { shift with status := .completed, endTime := some now } })) := by
  constructor
  · intro hne
    have hlen : 0 < (db.orders.filter (isBlockingOrder driverId shift.shiftDate)).length :=
      List.length_pos.mpr hne
    unfold endShift
    simp [hs, hown, hact, hlen]
  · intro hnil
    unfold endShift
    simp [hs, hown, hact, hnil]

/-- A store where driver 1 holds active shift 4 on day 9 and order 5 for
that day is still `assigned`. -/
def dbShiftEnd : DB :=
  ⟨[⟨1, "Dana"⟩], [⟨1, "TXA"⟩], [11], [12],
   [⟨3, 1, 1, ⟨9, 0⟩⟩],
   [⟨4, 1, some 3, ⟨9, 0⟩, .active, some ⟨9, 1⟩, none⟩],
   [⟨5, 11, 12, 500, .assigned, some 1, some ⟨9, 0⟩⟩],
   [], [], [], 7⟩

/-- `dbShiftEnd` with the order resolved to `completed`. -/
def dbShiftEndClear : DB :=
  { dbShiftEnd with orders := [⟨5, 11, 12, 500, .completed, some 1, some ⟨9, 0⟩⟩] }

/-- C3 witness: ending shift 4 is blocked (naming order 5) while the
order is open, and succeeds once it is completed. -/
theorem C3_witness :
    endShift 4 1 ⟨9, 5⟩ dbShiftEnd =
      (.error (.badRequest (endBlockedMsg
        (dbShiftEnd.orders.filter (isBlockingOrder 1 ⟨9, 0⟩)))), dbShiftEnd) ∧
    endShift 4 1 ⟨9, 5⟩ dbShiftEndClear =
      (.ok ⟨4, 1, some 3, ⟨9, 0⟩, .completed, some ⟨9, 1⟩, some ⟨9, 5⟩⟩,
        { dbShiftEndClear with
          shifts :=
            updateShift dbShiftEndClear.shifts 4
              ⟨4, 1, some 3, ⟨9, 0⟩, .completed, some ⟨9, 1⟩, some ⟨9, 5⟩⟩ }) := by
  constructor
  · exact (C3_endShift_blocked_iff_incomplete_orders 4 1 ⟨9, 5⟩ dbShiftEnd
      ⟨4, 1, some 3, ⟨9, 0⟩, .active, some ⟨9, 1⟩, none⟩
      (by decide) (by decide) (by decide)).1 (by decide)
  · exact (C3_endShift_blocked_iff_incomplete_orders 4 1 ⟨9, 5⟩ dbShiftEndClear
      ⟨4, 1, some 3, ⟨9, 0⟩, .active, some ⟨9, 1⟩, none⟩
      (by decide) (by decide) (by decide)).2 (by decide)

/-- C4: `startShift` fails NotFound for an unknown driver; else Conflict
when the driver already has an active shift; else BadRequest when no
allocation exists for (driver, today); else the existing shift row for
(driver, today) is activated with `startTime = now` and the allocation
bound, and when none exists a new shift is created directly active and
bound to that allocation. -/
theorem C4_startShift_cases (driverId : Nat) (now : DateTime) (db : DB) :
    (findDriver db driverId = none →
      startShift driverId now db =
        (.error (.notFound ("Driver with ID " ++ toString driverId ++ " not found")), db)) ∧
    (∀ driver s, findDriver db driverId = some driver →
      getActiveShiftForDriver db driverId = some s →
      startShift driverId now db =
        (.error (.conflict "Driver already has an active shift"), db)) ∧
    (∀ driver, findDriver db driverId = some driver →
      getActiveShiftForDriver db driverId = none →
      getByDriverAndDate db driverId (midnight now) = none →
      startShift driverId now db =
        (.error (.badRequest ("No vehicle allocated for driver " ++ driver.name ++
          " today. Cannot start shift.")), db)) ∧
    (∀ driver alloc sch, findDriver db driverId = some driver →
      getActiveShiftForDriver db driverId = none →
      getByDriverAndDate db driverId (midnight now) = some alloc →
      db.shifts.find?
        (fun s => s.driverId == driverId && s.shiftDate == midnight now) = some sch →
      startShift driverId now db =
        (.ok { sch with
            status := .active, startTime := some now,
            vehicleAllocationId := some alloc.id },
          { db with
            shifts :=
              updateShift db.shifts sch.id
                { sch with
                  status := .active, startTime := some now,
                  vehicleAllocationId := some alloc.id } })) ∧
    (∀ driver alloc, findDriver db driverId = some driver →
      getActiveShiftForDriver db driverId = none →
      getByDriverAndDate db driverId (midnight now) = some alloc →
      db.shifts.find?
        (fun s => s.driverId == driverId && s.shiftDate == midnight now) = none →
      startShift driverId now db =
        (.ok ⟨db.nextId, driverId, some alloc.id, midnight now, .active, some now, none⟩,
          { db with
            shifts := db.shifts ++
              [⟨db.nextId, driverId, some alloc.id, midnight now, .active, some now, none⟩],
            nextId := db.nextId + 1 })) := by
  refine ⟨?_, ?_, ?_, ?_, ?_⟩
  · intro hnone
    unfold startShift
    simp [hnone]
  · intro driver s hdrv hact
    unfold startShift
    simp [hdrv, hact]
  · intro driver hdrv hact halloc
    unfold startShift
    simp [hdrv, hact, halloc]
  · intro driver alloc sch hdrv hact halloc hsch
    unfold startShift
    simp [hdrv, hact, halloc, hsch]
  · intro driver alloc hdrv hact halloc hsch
    unfold startShift
    simp [hdrv, hact, halloc, hsch]

/-- A store with driver 1, vehicle 1, an allocation for day 9 and no
shift rows. -/
def dbStart : DB :=
  ⟨[⟨1, "Dana"⟩], [⟨1, "TXA"⟩], [], [], [⟨3, 1, 1, ⟨9, 0⟩⟩], [], [], [], [], [], 7⟩

/-- C4 witness: with an allocation for today and no shift row, starting
creates an ad-hoc active shift bound to the allocation. -/
theorem C4_witness :
    startShift 1 ⟨9, 4⟩ dbStart =
      (.ok ⟨7, 1, some 3, ⟨9, 0⟩, .active, some ⟨9, 4⟩, none⟩,
        { dbStart with
          shifts := [⟨7, 1, some 3, ⟨9, 0⟩, .active, some ⟨9, 4⟩, none⟩],
          nextId := 8 }) :=
  (C4_startShift_cases 1 ⟨9, 4⟩ dbStart).2.2.2.2 ⟨1, "Dana"⟩ ⟨3, 1, 1, ⟨9, 0⟩⟩
    (by decide) (by decide) (by decide) (by decide)

/-- C5: for an `assigned` or `in_progress` order whose assigned driver
holds an active shift and for any non-empty reason, `failOrder` marks
the order failed and resolves the open attempt for (order, shift) — or
creates a failed one when none exists — with the reason and a
timestamp, while every Inventory row is left unchanged. -/
theorem C5_failOrder_no_inventory_effect (id driverId : Nat)
    (reason : String) (now : DateTime) (db : DB) (o : Order) (activeShift : Shift)
    (ho : findOrder db id = some o)
    (hdrv : o.assignedDriverId = some driverId)
    (hst : o.status = .assigned ∨ o.status = .in_progress)
    (hsh : getActiveShiftForDriver db driverId = some activeShift)
    (hreason : reason ≠ "") :
    (∀ attempt, findOpenAttempt db id activeShift.id = some attempt →
      failOrder id driverId reason now db =
        (.ok { o with status := .failed },
          { db with
            orders := updateOrder db.orders id { o with status := .failed },
            attempts :=
              updateAttempt db.attempts attempt.id
                { attempt with
                  status := .failed, failureReason := some reason,
                  completedAt := some now } })) ∧
    (findOpenAttempt db id activeShift.id = none →
      failOrder id driverId reason now db =
        (.ok { o with status := .failed },
          { db with
            orders := updateOrder db.orders id { o with status := .failed },
            attempts := db.attempts ++
              [⟨db.nextId, id, activeShift.id, .failed, some reason, some now⟩],
            nextId := db.nextId + 1 })) ∧
    (failOrder id driverId reason now db).2.inventory = db.inventory := by
  have hstatus : (o.status != .assigned && o.status != .in_progress) = false := by
    rcases hst with h | h <;> simp [h]
  refine ⟨?_, ?_, ?_⟩
  · intro attempt hat
    unfold failOrder
    simp [ho, hdrv, hstatus, hsh, hat]
  · intro hat
    unfold failOrder
    simp [ho, hdrv, hstatus, hsh, hat]
  · unfold failOrder
    cases hat : findOpenAttempt db id activeShift.id <;>
      simp [ho, hdrv, hstatus, hsh, hat]

/-- C5 witness: failing the in-progress order 5 of `dbOrder` resolves
attempt 6 with the reason and leaves inventory untouched, and failing
the merely-assigned order 5 of `dbShiftEnd` also leaves inventory
untouched. -/
theorem C5_witness :
    failOrder 5 1 "Pump malfunction" ⟨9, 3⟩ dbOrder =
      (.ok ⟨5, 11, 12, 500, .failed, some 1, some ⟨9, 0⟩⟩,
        { dbOrder with
          orders := [⟨5, 11, 12, 500, .failed, some 1, some ⟨9, 0⟩⟩],
          attempts :=
            [⟨6, 5, 4, .failed, some "Pump malfunction", some ⟨9, 3⟩⟩] }) ∧
    (failOrder 5 1 "Pump malfunction" ⟨9, 3⟩ dbShiftEnd).2.inventory =
      dbShiftEnd.inventory := by
  constructor
  · have h := (C5_failOrder_no_inventory_effect 5 1 "Pump malfunction" ⟨9, 3⟩ dbOrder
      ⟨5, 11, 12, 500, .in_progress, some 1, some ⟨9, 0⟩⟩
      ⟨4, 1, some 3, ⟨9, 0⟩, .active, some ⟨9, 1⟩, none⟩
      (by decide) (by decide) (Or.inr (by decide)) (by decide) (by decide)).1
      ⟨6, 5, 4, .in_progress, none, none⟩ (by decide)
    exact h
  · exact (C5_failOrder_no_inventory_effect 5 1 "Pump malfunction" ⟨9, 3⟩ dbShiftEnd
      ⟨5, 11, 12, 500, .assigned, some 1, some ⟨9, 0⟩⟩
      ⟨4, 1, some 3, ⟨9, 0⟩, .active, some ⟨9, 1⟩, none⟩
      (by decide) (by decide) (Or.inl (by decide)) (by decide) (by decide)).2.2

/-- C6: `recordGps` fails NotFound for an unknown vehicle; fails
BadRequest — creating no row — exactly when no active shift's allocation
references the vehicle; and otherwise stores the ping stamped with that
shift's id, `recordedAt` defaulting to the current instant when
omitted. -/
theorem C6_recordGps_requires_active_shift (vehicleId : Nat)
    (latitude longitude : Int) (recordedAt : Option DateTime)
    (now : DateTime) (db : DB) :
    (findVehicle db vehicleId = none →
      recordGps vehicleId latitude longitude recordedAt now db =
        (.error (.notFound ("Vehicle with ID " ++ toString vehicleId ++
          " not found")), db)) ∧
    (∀ vehicle, findVehicle db vehicleId = some vehicle →
      findActiveShiftForVehicle db vehicleId = none →
      recordGps vehicleId latitude longitude recordedAt now db =
        (.error (.badRequest ("Cannot record GPS: vehicle " ++
          vehicle.registrationNumber ++ " does not have an active shift")), db)) ∧
    (∀ vehicle activeShift, findVehicle db vehicleId = some vehicle →
      findActiveShiftForVehicle db vehicleId = some activeShift →
      recordGps vehicleId latitude longitude recordedAt now db =
        (.ok ⟨db.nextId, vehicleId, activeShift.id, latitude, longitude,
            recordedAt.getD now⟩,
          { db with
            gps := db.gps ++ [⟨db.nextId, vehicleId, activeShift.id, latitude,
              longitude, recordedAt.getD now⟩],
            nextId := db.nextId + 1 })) := by
  refine ⟨?_, ?_, ?_⟩
  · intro hnone
    unfold recordGps
    simp [hnone]
  · intro vehicle hv hsh
    unfold recordGps
    simp [hv, hsh]
  · intro vehicle activeShift hv hsh
    unfold recordGps
    simp [hv, hsh]

/-- C6 witness: a ping for vehicle 1 is admitted under active shift 4 of
`dbOrder` with the defaulted timestamp, and rejected in `dbTwo` where no
shift is active. -/
theorem C6_witness :
    recordGps 1 45 (-73) none ⟨9, 6⟩ dbOrder =
      (.ok ⟨7, 1, 4, 45, -73, ⟨9, 6⟩⟩,
        { dbOrder with gps := [⟨7, 1, 4, 45, -73, ⟨9, 6⟩⟩], nextId := 8 }) ∧
    recordGps 1 45 (-73) (some ⟨9, 5⟩) ⟨9, 6⟩ dbTwo =
      (.error (.badRequest ("Cannot record GPS: vehicle " ++ "TXA" ++
        " does not have an active shift")), dbTwo) := by
  constructor
  · exact (C6_recordGps_requires_active_shift 1 45 (-73) none ⟨9, 6⟩ dbOrder).2.2
      ⟨1, "TXA"⟩ ⟨4, 1, some 3, ⟨9, 0⟩, .active, some ⟨9, 1⟩, none⟩
      (by decide) (by decide)
  · exact (C6_recordGps_requires_active_shift 1 45 (-73) (some ⟨9, 5⟩) ⟨9, 6⟩ dbTwo).2.1
      ⟨1, "TXA"⟩ (by decide) (by decide)

/-- Driver 1 and vehicle 2, nothing else. -/
def dbBug0 : DB :=
  ⟨[⟨1, "Dana"⟩], [⟨2, "TXA"⟩], [], [], [], [], [], [], [], [], 10⟩

/-- After `allocate(2, 1, day 9)`. -/
def dbBug1 : DB := (allocate 2 1 ⟨9, 0⟩ ⟨9, 0⟩ dbBug0).2

/-- After `startShift(1)` later on day 9: shift 11 is active. -/
def dbBug2 : DB := (startShift 1 ⟨9, 1⟩ dbBug1).2

/-- After `endShift(11, 1)`: shift 11 is completed. -/
def dbBug3 : DB := (endShift 11 1 ⟨9, 2⟩ dbBug2).2

/-- C7: the shift state machine is not forward-only.  The `findUnique`
in `start` has no status filter, so after allocate → start → end on the
same day, a second `startShift` finds the completed shift row for
(driver, today) and re-activates it: completed transitions back to
active, with the stale `endTime` retained. -/
theorem C7_completed_shift_reactivated_by_startShift :
    (findShift dbBug3 11).map Shift.status = some ShiftStatus.completed ∧
    (startShift 1 ⟨9, 3⟩ dbBug3).1 =
      .ok ⟨11, 1, some 10, ⟨9, 0⟩, .active, some ⟨9, 3⟩, some ⟨9, 2⟩⟩ ∧
    (findShift (startShift 1 ⟨9, 3⟩ dbBug3).2 11).map Shift.status =
      some ShiftStatus.active :=
  ⟨rfl, rfl, rfl⟩

/-- Driver 1, vehicle 1, location 4, product 7, allocation 3 and active
shift 44 for day 10. -/
def dbC10 : DB :=
  ⟨[⟨1, "Dana"⟩], [⟨1, "TXA"⟩], [4], [7], [⟨3, 1, 1, ⟨10, 0⟩⟩],
   [⟨44, 1, some 3, ⟨10, 0⟩, .active, some ⟨10, 1⟩, none⟩], [], [], [], [], 50⟩

/-- The order stored by `createOrder` with a driver and no date at the
mid-day instant ⟨10, 7⟩: the `@db.Date` column keeps only day 10. -/
def oC10 : Order := ⟨50, 4, 7, 5, .assigned, some 1, some ⟨10, 0⟩⟩

/-- `dbC10` after that `createOrder`. -/
def dbC10' : DB := { dbC10 with orders := [oC10], nextId := 51 }

/-- C10 counterexample: `createOrder` with a driver and no date at the
mid-day instant ⟨10, 7⟩ stores `assignedDate = ⟨10, 0⟩` — the calendar
date, not the instant with its time-of-day intact — and `endShift` for
the same-day shift does count the order, failing BadRequest naming
it. -/
theorem C10_counterexample :
    createOrder ⟨4, 7, 5, some 1, none⟩ ⟨10, 7⟩ dbC10 = (.ok oC10, dbC10') ∧
    oC10.assignedDate ≠ some ⟨10, 7⟩ ∧
    (endShift 44 1 ⟨10, 9⟩ dbC10').1 =
      .error (.badRequest (endBlockedMsg [oC10])) :=
  ⟨rfl, by decide, rfl⟩

/-- C10 (amended): `createOrder` with an assigned driver and no
`assignedDate` stores status = assigned and `assignedDate` defaulting to
the current instant, which the `@db.Date` column truncates to the
calendar date (midnight) — the same value `assignOrder`'s explicit
normalization produces — so the order does satisfy `endShift`'s blocking
predicate for a same-day shift. -/
theorem C10_createOrder_default_date_truncated_and_counted
    (data : CreateOrderData) (driverId : Nat) (now : DateTime) (db : DB)
    (hdest : db.locations.contains data.destinationId = true)
    (hprod : db.products.contains data.productId = true)
    (hdrv : data.assignedDriverId = some driverId)
    (hdriver : ∃ driver, findDriver db driverId = some driver)
    (hdate : data.assignedDate = none) :
    createOrder data now db =
      (.ok ⟨db.nextId, data.destinationId, data.productId, data.quantity,
          .assigned, some driverId, some (midnight now)⟩,
        { db with
          orders := db.orders ++ [⟨db.nextId, data.destinationId, data.productId,
            data.quantity, .assigned, some driverId, some (midnight now)⟩],
          nextId := db.nextId + 1 }) ∧
    isBlockingOrder driverId (midnight now)
      ⟨db.nextId, data.destinationId, data.productId, data.quantity,
        .assigned, some driverId, some (midnight now)⟩ = true := by
  obtain ⟨driver, hdriver⟩ := hdriver
  have hdest' : data.destinationId ∈ db.locations := by simpa using hdest
  have hprod' : data.productId ∈ db.products := by simpa using hprod
  constructor
  · unfold createOrder
    simp [hdest', hprod', hdrv, hdriver, hdate, storeDate]
  · simp [isBlockingOrder]

/-- C10 witness: the amended statement evaluated in `dbC10` at instant
⟨10, 7⟩. -/
theorem C10_witness :
    createOrder ⟨4, 7, 5, some 1, none⟩ ⟨10, 7⟩ dbC10 = (.ok oC10, dbC10') ∧
    isBlockingOrder 1 ⟨10, 0⟩ oC10 = true := by
  have h := C10_createOrder_default_date_truncated_and_counted
    ⟨4, 7, 5, some 1, none⟩ 1 ⟨10, 7⟩ dbC10 (by decide) (by decide) rfl
    ⟨⟨1, "Dana"⟩, by decide⟩ rfl
  exact ⟨h.1, h.2⟩

end Fleet
